import Mathlib

/-!
Shallow embedding of `src/script.js` (RiyaTechAI conversational client),
restricted to the voice-conversation coordinator and its collaborators.

Modelling conventions:
* The four mutable coordination flags (`isRecording`, `isSpeaking`,
  `autoSpeak`, `continuousMode`, lines 9-13 of the source) together with the
  session values become fields of `CoordState`.
* Every JS handler or function becomes a Lean function
  `CoordState → CoordState × List Effect`: the returned state holds the
  synchronous flag updates, the effect list records, in order, every
  externally visible action the handler performs (capability start/stop
  requests, DOM status messages, notifications, scheduled timers, chat
  requests).  `setTimeout(f, d)` becomes the effect `Effect.schedule d t`
  where `t : TimerTask` names the callback; the body of the callback is the
  function `fireTimer t`, evaluated in whatever state holds when the timer
  fires.
* The `fetch` in `sendMessage` is modelled by passing the outcome of the
  request as an `Option ChatResponse` argument (`none` = the `try` block
  threw before any assignment, i.e. the request failed).
* Strings are Lean `String`s (unicode scalar sequences); the JS regexes of
  lines 163-167 operate on literal alternatives whose UTF-16 encodings match
  scalar-by-scalar, so scalar-level translation is faithful.
-/

namespace RiyaVoice

/-- A speech-synthesis voice as exposed by `speechSynthesis.getVoices()`:
only the `name` and `lang` fields are consulted by the source. -/
structure Voice where
  name : String
  lang : String
deriving DecidableEq

/-- The parts of a `SpeechSynthesisUtterance` the claims are about
(lines 169-188; the numeric rate/pitch/volume fields are constants the
claims do not mention). -/
structure Utterance where
  text : String
  voice : Option Voice
  lang : String
deriving DecidableEq

/-- The callbacks the source passes to `setTimeout`, named by their site:
`restartAfterEnd` (line 78, 500 ms), `restartAfterError` (line 65, 1000 ms),
`sendAfterResult` (line 43, 500 ms), `hideStatusLater` (line 47, 2000 ms),
`restartAfterSpeech` (line 200, 800 ms), `restartAfterSpeechError`
(line 220, 1000 ms), `speakNow` (line 226, 100 ms). -/
inductive TimerTask where
  | restartAfterEnd
  | restartAfterError
  | sendAfterResult
  | hideStatusLater
  | restartAfterSpeech
  | restartAfterSpeechError
  | speakNow
deriving DecidableEq

/-- Externally visible actions a handler can perform, in program order. -/
inductive Effect where
  | listenerStart
  | listenerStop
  | speakerSpeak (u : Utterance)
  | speakerCancel
  | showVoiceStatus (msg : String) (isError : Bool)
  | hideStatus
  | showNotification (msg : String) (kind : String)
  | schedule (delayMs : Nat) (t : TimerTask)
  | chatRequest (msg : String)
  | addMessage (who : String) (text : String)
  | showLoading (active : Bool)
  | triggerSendMessage
deriving DecidableEq

/-- The mutable state of the page (lines 2-13): session values plus the four
coordination flags, the message input field, capability support, and the
module-level `currentUtterance` variable. -/
structure CoordState where
  sessionId : Option String
  patientData : String
  messageInput : String
  isRecording : Bool
  isSpeaking : Bool
  autoSpeak : Bool
  continuousMode : Bool
  srSupported : Bool
  ttsSupported : Bool
  currentUtterance : Option Utterance
deriving DecidableEq

/-- Page-load state (lines 2-13): all flags down, no session. -/
def initState : CoordState :=
  { sessionId := none
    patientData := ""
    messageInput := ""
    isRecording := false
    isSpeaking := false
    autoSpeak := false
    continuousMode := false
    srSupported := true
    ttsSupported := true
    currentUtterance := none }

/-! ### Text cleaning (lines 163-167)

The source applies four global regex replacements in sequence:
1. `/🩺|💡|💊|🥗|⚠️|⚠|📅|🎯|📊|🛡️|🏃|👤/g → ''` — ordered alternation; the
   alternatives are ten single scalars plus the two-scalar sequences
   `⚠ U+FE0F` (tried before bare `⚠`) and `🛡 U+FE0F` (no bare `🛡`
   alternative exists).
2. `/━+/g → ''` — every `━` (U+2501) deleted.
3. two consecutive `*` deleted globally, scanning left to right.
4. `/\n{3,}/g → '\n\n'` — every maximal run of 3 or more newlines replaced
   by exactly two.
-/

/-- The ten single-scalar alternatives of the emoji regex (line 164). -/
def isEmojiSingle (c : Char) : Bool :=
  c = '🩺' || c = '💡' || c = '💊' || c = '🥗' || c = '⚠' ||
  c = '📅' || c = '🎯' || c = '📊' || c = '🏃' || c = '👤'

/-- Replacement 1 (line 164).  At each position the regex first tries the
two-scalar alternatives `⚠ U+FE0F` / `🛡 U+FE0F`, then the single-scalar
ones; on a match it drops the matched scalars and continues after them,
otherwise it keeps the character and advances. -/
def removeEmoji : List Char → List Char
  | [] => []
  | [c] => if isEmojiSingle c then [] else [c]
  | c :: d :: rest =>
    if (c = '⚠' || c = '🛡') && d = '\uFE0F' then removeEmoji rest
    else if isEmojiSingle c then removeEmoji (d :: rest)
    else c :: removeEmoji (d :: rest)

/-- Replacement 2 (line 165): `/━+/g → ''` deletes every `━`. -/
def removeBars (l : List Char) : List Char :=
  l.filter (fun c => c ≠ '━')

/-- Replacement 3 (line 166): every pair of consecutive stars deleted,
scanning left to right. -/
def removeStars : List Char → List Char
  | [] => []
  | [c] => [c]
  | c :: d :: rest =>
    if c = '*' && d = '*' then removeStars rest
    else c :: removeStars (d :: rest)

/-- Replacement 4 (line 167), as a left-to-right scan: `k` counts the
newlines of the current run that have already been emitted; once two have
been emitted every further newline of the run is dropped, so a run of `n`
newlines yields `min n 2` of them — exactly `/\n{3,}/g → '\n\n'`. -/
def collapseGo : Nat → List Char → List Char
  | _, [] => []
  | k, c :: rest =>
    if c = '\n' then
      if k ≥ 2 then collapseGo (k + 1) rest
      else '\n' :: collapseGo (k + 1) rest
    else c :: collapseGo 0 rest

/-- The whole cleaning pipeline of lines 163-167 on scalar lists. -/
def cleanChars (l : List Char) : List Char :=
  collapseGo 0 (removeStars (removeBars (removeEmoji l)))

/-- `cleanText` is the value of `cleanText` in `speakText` (lines 163-167). -/
def cleanText (s : String) : String :=
  ⟨cleanChars s.data⟩

/-! ### Voice selection (lines 175-188) -/

/-- Lean transcription of `JS String.prototype.includes`: `pat` occurs as a
contiguous subsequence of `l`. -/
def startsWithSeq : List Char → List Char → Bool
  | [], _ => true
  | _ :: _, [] => false
  | p :: ps, c :: cs => p = c && startsWithSeq ps cs

/-- Contiguous-substring test on scalar lists. -/
def containsSeq (pat : List Char) : List Char → Bool
  | [] => startsWithSeq pat []
  | c :: rest => startsWithSeq pat (c :: rest) || containsSeq pat rest

/-- `s.includes(pat)` of JS, on Lean strings. -/
def strContains (s pat : String) : Bool :=
  containsSeq pat.data s.data

/-- The name part of the first `voices.find` predicate (lines 180-184):
case-sensitive substring match against the five preferred names. -/
def isPreferredName (v : Voice) : Bool :=
  strContains v.name "Female" || strContains v.name "Samantha" ||
  strContains v.name "Victoria" || strContains v.name "Google" ||
  strContains v.name "Microsoft"

/-- First-tier predicate of the source (lines 178-184): the voice's `lang`
must contain `en-US` or `en-GB`, and its name a preferred substring. -/
def tier1 (v : Voice) : Bool :=
  (strContains v.lang "en-US" || strContains v.lang "en-GB") && isPreferredName v

/-- Second-tier predicate (line 185): `voice.lang.includes('en')`. -/
def isEnglishVoice (v : Voice) : Bool :=
  strContains v.lang "en"

/-- Lines 178-185: `voices.find(tier1) || voices.find(isEnglishVoice) ||
voices[0]`.  A found `Voice` object is always truthy, so `||` is
first-some selection. -/
def selectVoice (voices : List Voice) : Option Voice :=
  match voices.find? tier1 with
  | some v => some v
  | none =>
    match voices.find? isEnglishVoice with
    | some v => some v
    | none => voices.head?

/-- Modelled from the spec (claim C9's words), for comparison with
`selectVoice`: first tier is "an English voice whose name contains one of
the five preferred substrings" — i.e. the `en`-substring language test
rather than the source's `en-US`/`en-GB` test. -/
def tier1Claim (v : Voice) : Bool :=
  isEnglishVoice v && isPreferredName v

/-- Modelled from the spec (claim C9's words): preference order
claim-tier-1, then any English voice, then the first voice. -/
def selectVoiceClaim (voices : List Voice) : Option Voice :=
  match voices.find? tier1Claim with
  | some v => some v
  | none =>
    match voices.find? isEnglishVoice with
    | some v => some v
    | none => voices.head?

/-! ### Coordinator operations -/

/-- `stopSpeaking` (lines 231-234): cancels playback and clears the flag. -/
def stopSpeaking (s : CoordState) : CoordState × List Effect :=
  ({ s with isSpeaking := false }, [Effect.speakerCancel])

/-- `stopRecording` (lines 122-126): clears the flag (the button-CSS updates
are not modelled). -/
def stopRecording (s : CoordState) : CoordState :=
  { s with isRecording := false }

/-- `startListening` (lines 90-108).  When the capability is unsupported,
`initSpeechRecognition` re-runs and shows its notification (line 86) and the
subsequent `recognition.start()` on `null` throws inside the `try`, so no
capability start is issued.  Line 96: return early while `isSpeaking`.
Line 101: only start when not already recording. -/
def startListening (s : CoordState) : CoordState × List Effect :=
  let initEffs :=
    if s.srSupported then []
    else [Effect.showNotification "Voice recognition not supported in this browser" "error"]
  if s.isSpeaking then (s, initEffs)
  else if !s.isRecording && s.srSupported then (s, initEffs ++ [Effect.listenerStart])
  else (s, initEffs)

/-- `toggleVoiceInput` (lines 110-120). -/
def toggleVoiceInput (s : CoordState) : CoordState × List Effect :=
  let initEffs :=
    if s.srSupported then []
    else [Effect.showNotification "Voice recognition not supported in this browser" "error"]
  if s.isRecording then (s, initEffs ++ [Effect.listenerStop])
  else
    let r := startListening s
    (r.1, initEffs ++ r.2)

/-- `recognition.onstart` (lines 24-34): raises the recording flag, shows
the listening status, and stops any ongoing speech. -/
def handleRecognitionStart (s : CoordState) : CoordState × List Effect :=
  let s1 := { s with isRecording := true }
  let e1 := [Effect.showVoiceStatus "🎤 Listening... Speak now" false]
  if s1.isSpeaking then
    let r := stopSpeaking s1
    (r.1, e1 ++ r.2)
  else (s1, e1)

/-- `recognition.onresult` (lines 36-49): stores the transcript in the
message field; in continuous mode schedules `sendMessage()` after 500 ms,
otherwise schedules hiding the status after 2 s. -/
def handleRecognitionResult (transcript : String) (s : CoordState) :
    CoordState × List Effect :=
  let s1 := { s with messageInput := transcript }
  let e1 := [Effect.showVoiceStatus ("✓ Voice input received: \"" ++ transcript ++ "\"") false]
  if s1.continuousMode then (s1, e1 ++ [Effect.schedule 500 TimerTask.sendAfterResult])
  else (s1, e1 ++ [Effect.schedule 2000 TimerTask.hideStatusLater])

/-- `recognition.onerror` (lines 51-71): the error status is suppressed for
`aborted`/`no-speech` in continuous mode (line 55); the flag drops via
`stopRecording` (line 61); a 1 s restart is scheduled only in continuous
mode for errors other than `aborted`/`no-speech` (line 64). -/
def handleRecognitionError (err : String) (s : CoordState) :
    CoordState × List Effect :=
  let e1 :=
    if s.continuousMode ∧ (err = "aborted" ∨ err = "no-speech") then []
    else [Effect.showVoiceStatus ("❌ Error: " ++ err) true]
  let s1 := stopRecording s
  let e2 :=
    if s.continuousMode ∧ err ≠ "aborted" ∧ err ≠ "no-speech" then
      [Effect.schedule 1000 TimerTask.restartAfterError]
    else []
  (s1, e1 ++ e2)

/-- `recognition.onend` (lines 73-84): always drops the recording flag; in
continuous mode with the speaker idle, schedules a 500 ms restart. -/
def handleRecognitionEnd (s : CoordState) : CoordState × List Effect :=
  let s1 := stopRecording s
  if s1.continuousMode ∧ ¬s1.isSpeaking then
    (s1, [Effect.schedule 500 TimerTask.restartAfterEnd])
  else (s1, [])

/-- The utterance `speakText` constructs (lines 169-188): cleaned text,
`en-US`, and the selected voice (left unassigned when no voices are
available, which `selectVoice` returns as `none`). -/
def mkUtterance (voices : List Voice) (text : String) : Utterance :=
  { text := cleanText text, voice := selectVoice voices, lang := "en-US" }

/-- `speakText` (lines 146-229): unsupported capability notifies and returns
(lines 147-151); an active speaker is cancelled (line 153) without touching
`isSpeaking`; an active listener gets a stop request and a status message
(lines 158-161) without touching `isRecording`; the new utterance is stored
in `currentUtterance` and the actual `speechSynthesis.speak` call is
deferred 100 ms (lines 226-228). -/
def speakText (voices : List Voice) (text : String) (s : CoordState) :
    CoordState × List Effect :=
  if ¬s.ttsSupported then
    (s, [Effect.showNotification "Text-to-speech not supported in this browser" "error"])
  else
    let e1 := if s.isSpeaking then [Effect.speakerCancel] else []
    let e2 :=
      if s.isRecording then
        [Effect.listenerStop,
         Effect.showVoiceStatus "🔇 Voice input paused while AI speaks..." false]
      else []
    ({ s with currentUtterance := some (mkUtterance voices text) },
     e1 ++ e2 ++ [Effect.schedule 100 TimerTask.speakNow])

/-- `currentUtterance.onstart` (lines 190-193). -/
def handleUtteranceStart (s : CoordState) : CoordState × List Effect :=
  ({ s with isSpeaking := true },
   [Effect.showVoiceStatus "🔊 AI is speaking... Voice input paused" false])

/-- `currentUtterance.onend` (lines 195-209): drops the speaking flag; in
continuous mode schedules an 800 ms restart, otherwise hides the status. -/
def handleUtteranceEnd (s : CoordState) : CoordState × List Effect :=
  let s1 := { s with isSpeaking := false }
  if s1.continuousMode then (s1, [Effect.schedule 800 TimerTask.restartAfterSpeech])
  else (s1, [Effect.hideStatus])

/-- `currentUtterance.onerror` (lines 211-224): drops the speaking flag,
notifies unless the kind is `interrupted`, and — checking the flags at
scheduling time only — schedules a 1 s restart. -/
def handleUtteranceError (err : String) (s : CoordState) :
    CoordState × List Effect :=
  let s1 := { s with isSpeaking := false }
  let e1 :=
    if err ≠ "interrupted" then [Effect.showNotification ("Speech error: " ++ err) "error"]
    else []
  let e2 :=
    if s1.continuousMode ∧ ¬s1.isRecording then
      [Effect.schedule 1000 TimerTask.restartAfterSpeechError]
    else []
  (s1, e1 ++ e2)

/-- `toggleAutoSpeak` (lines 236-251): flips the flag; turning it off also
stops speech. -/
def toggleAutoSpeak (s : CoordState) : CoordState × List Effect :=
  let s1 := { s with autoSpeak := !s.autoSpeak }
  if s1.autoSpeak then
    (s1, [Effect.showNotification "Auto-speak enabled - Doctor responses will be spoken" "success"])
  else
    let r := stopSpeaking s1
    (r.1, r.2 ++ [Effect.showNotification "Auto-speak disabled" "info"])

/-- `toggleContinuousMode` (lines 253-281).  On: forces `autoSpeak` true
(lines 262-268; the assignment is guarded by `!autoSpeak` but the result is
`true` either way) and calls `startListening()` (line 271).  Off: requests a
listener stop if recording (lines 276-278) and stops speech (line 279). -/
def toggleContinuousMode (s : CoordState) : CoordState × List Effect :=
  let s1 := { s with continuousMode := !s.continuousMode }
  if s1.continuousMode then
    let s2 := { s1 with autoSpeak := true }
    let r := startListening s2
    (r.1, [Effect.showNotification "Continuous conversation mode enabled! Speak naturally." "success"]
          ++ r.2)
  else
    let e1 := if s1.isRecording then [Effect.listenerStop] else []
    let r := stopSpeaking s1
    (r.1, [Effect.showNotification "Continuous mode disabled" "info"] ++ e1 ++ r.2)

/-- The JSON body of a successful `POST /chat` reply (lines 355-357). -/
structure ChatResponse where
  session_id : String
  response : String
  patient_data : String
deriving DecidableEq

/-- The hard-coded reply shown when the chat request fails (line 366). -/
def fallbackReply : String := "❌ Sorry, there was an error. Please try again."

/-- Transcription of `String.prototype.trim` (line 335) on scalar lists:
drop whitespace from both ends. -/
def trimChars (l : List Char) : List Char :=
  ((l.dropWhile Char.isWhitespace).reverse.dropWhile Char.isWhitespace).reverse

/-- `input.value.trim()` of line 335, on Lean strings. -/
def strTrim (s : String) : String :=
  ⟨trimChars s.data⟩

/-- `sendMessage` (lines 333-370).  `resp = none` means the `try` block
threw before the assignments of lines 356-357 ran (request failure), so the
session values stay untouched and the fallback reply is added; on success
the session values are overwritten and the reply is spoken when
`autoSpeak || continuousMode` (line 361). -/
def sendMessage (voices : List Voice) (resp : Option ChatResponse)
    (s : CoordState) : CoordState × List Effect :=
  let m := strTrim s.messageInput
  if m = "" then (s, [])
  else
    let s1 := { s with messageInput := "" }
    let pre := [Effect.addMessage "user" m, Effect.showLoading true, Effect.chatRequest m]
    match resp with
    | none =>
      (s1, pre ++ [Effect.addMessage "doctor" fallbackReply, Effect.showLoading false])
    | some d =>
      let s2 := { s1 with sessionId := some d.session_id, patientData := d.patient_data }
      let e1 := [Effect.addMessage "doctor" d.response]
      if s2.autoSpeak || s2.continuousMode then
        let r := speakText voices d.response s2
        (r.1, pre ++ e1 ++ r.2 ++ [Effect.showLoading false])
      else (s2, pre ++ e1 ++ [Effect.showLoading false])

/-- The body of each `setTimeout` callback, evaluated in the state current
when the timer fires.  `restartAfterEnd` re-checks only `continuousMode`
(line 79); `restartAfterError` re-checks `continuousMode && !isSpeaking`
(line 66); `restartAfterSpeech` re-checks `continuousMode && !isRecording`
(line 201); `restartAfterSpeechError` re-checks nothing (line 221) and goes
straight to `startListening`; `speakNow` hands the module-level
`currentUtterance` to the speaker with no checks (line 227). -/
def fireTimer (t : TimerTask) (s : CoordState) : CoordState × List Effect :=
  match t with
  | TimerTask.restartAfterEnd =>
    if s.continuousMode then startListening s else (s, [])
  | TimerTask.restartAfterError =>
    if s.continuousMode ∧ ¬s.isSpeaking then startListening s else (s, [])
  | TimerTask.sendAfterResult => (s, [Effect.triggerSendMessage])
  | TimerTask.hideStatusLater => (s, [Effect.hideStatus])
  | TimerTask.restartAfterSpeech =>
    if s.continuousMode ∧ ¬s.isRecording then
      let r := startListening s
      (r.1, [Effect.showVoiceStatus "🎤 Ready to listen again..." false] ++ r.2)
    else (s, [])
  | TimerTask.restartAfterSpeechError => startListening s
  | TimerTask.speakNow =>
    match s.currentUtterance with
    | some u => (s, [Effect.speakerSpeak u])
    | none => (s, [])

/-! ### Helper predicates for the claims -/

/-- User-visible error surfaces: an error-styled status line or an
error-kind notification. -/
def isVisibleError : Effect → Bool
  | Effect.showVoiceStatus _ true => true
  | Effect.showNotification _ "error" => true
  | _ => false

/-- Effects that schedule one of the four listening-restart timers. -/
def isRestartSchedule : Effect → Bool
  | Effect.schedule _ TimerTask.restartAfterEnd => true
  | Effect.schedule _ TimerTask.restartAfterError => true
  | Effect.schedule _ TimerTask.restartAfterSpeech => true
  | Effect.schedule _ TimerTask.restartAfterSpeechError => true
  | _ => false

/-- Number of listening-restart attempts scheduled in an effect list. -/
def countRestarts (effs : List Effect) : Nat :=
  (effs.filter (fun e => isRestartSchedule e)).length

/-- Outgoing `POST /chat` requests. -/
def isChatRequest : Effect → Bool
  | Effect.chatRequest _ => true
  | _ => false

/-- Messages rendered on the doctor side of the chat. -/
def isDoctorMessage : Effect → Bool
  | Effect.addMessage "doctor" _ => true
  | _ => false

/-! ### Shared lemmas -/

/-- If `startListening` issues a capability start, the speaker flag was
down, the listener flag was down, and the capability is supported. -/
theorem startListening_start_mem {s : CoordState}
    (h : Effect.listenerStart ∈ (startListening s).2) :
    s.isSpeaking = false ∧ s.isRecording = false ∧ s.srSupported = true := by
  unfold startListening at h
  by_cases h1 : s.isSpeaking <;> by_cases h2 : s.isRecording <;>
    by_cases h3 : s.srSupported <;> simp_all

/-- `startListening` issues the capability start whenever all three guards
allow it. -/
theorem startListening_starts {s : CoordState} (h1 : s.isSpeaking = false)
    (h2 : s.isRecording = false) (h3 : s.srSupported = true) :
    Effect.listenerStart ∈ (startListening s).2 := by
  simp [startListening, h1, h2, h3]

/-- `startListening` never changes the state. -/
theorem startListening_state (s : CoordState) : (startListening s).1 = s := by
  unfold startListening
  by_cases h1 : s.isSpeaking <;> by_cases h2 : s.isRecording <;>
    by_cases h3 : s.srSupported <;> simp_all

/-! ### Claim C1 -/

/-- Claim C1, counterexample.  A concrete trace: from the page-load state
the listener starts (`onstart` raises `isRecording`), then `speakText` runs
while the listener is active; it requests a stop but leaves `isRecording`
raised, and when the 100 ms `speakNow` timer fires — before the capability
has acknowledged the stop — the utterance is handed to the speaker while
the coordinator still considers the listener active.  This refutes
"speakText never hands an utterance to the speaker while the coordinator
still considers the listener active". -/
theorem C1_counterexample :
    (speakText [] "hi" (handleRecognitionStart initState).1).1.isRecording = true ∧
    (fireTimer TimerTask.speakNow (speakText [] "hi" (handleRecognitionStart initState).1).1).2
      = [Effect.speakerSpeak (mkUtterance [] "hi")] := by
  constructor
  · rfl
  · rfl

/-- Claim C1, amended: `startListening` never issues a listener start while
the speaker is active; `speakText` never issues the speaker start
synchronously — when the coordinator considers the listener active it
requests a listener stop and only schedules the deferred 100 ms speak, but
that deferred start does not re-check the listener flag. -/
theorem C1_start_guards (s : CoordState) (voices : List Voice) (text : String) :
    (Effect.listenerStart ∈ (startListening s).2 → s.isSpeaking = false) ∧
    (s.isRecording = true → s.ttsSupported = true →
      Effect.listenerStop ∈ (speakText voices text s).2) ∧
    (∀ u : Utterance, Effect.speakerSpeak u ∉ (speakText voices text s).2) := by
  refine ⟨fun h => (startListening_start_mem h).1, fun h1 h2 => ?_, fun u => ?_⟩
  · simp [speakText, h1, h2]
  · unfold speakText
    by_cases h1 : s.ttsSupported <;> by_cases h2 : s.isSpeaking <;>
      by_cases h3 : s.isRecording <;> simp_all

/-- Claim C1, witness for the amended theorem. -/
theorem C1_start_guards_witness :
    initState.isSpeaking = false ∧
    Effect.listenerStop ∈ (speakText [] "x" { initState with isRecording := true }).2 ∧
    Effect.speakerSpeak (mkUtterance [] "x")
      ∉ (speakText [] "x" { initState with isRecording := true }).2 :=
  ⟨(C1_start_guards initState [] "x").1 (by decide),
   (C1_start_guards { initState with isRecording := true } [] "x").2.1 rfl rfl,
   (C1_start_guards { initState with isRecording := true } [] "x").2.2 _⟩

/-! ### Claim C3 -/

/-- Claim C3, counterexample.  The 1 s restart scheduled by the speaker's
error callback does not re-check `ContinuousModeFlag` when its timer fires:
fired in a state where continuous mode has since been disabled, it still
issues a listener start. -/
theorem C3_counterexample :
    initState.continuousMode = false ∧
    (fireTimer TimerTask.restartAfterSpeechError initState).2 = [Effect.listenerStart] := by
  constructor
  · rfl
  · rfl

/-- Claim C3, amended: the 500 ms end-restart, the 1 s listener-error
restart and the 800 ms speech-completion restart all re-check at fire time
that continuous mode is still on and that the speaker is idle before
issuing a listener start; the 1 s speaker-error restart re-checks only the
speaker state (through the guard inside `startListening`), not
`ContinuousModeFlag`. -/
theorem C3_restart_guards (t : TimerTask) (s : CoordState) :
    (t = TimerTask.restartAfterEnd ∨ t = TimerTask.restartAfterError ∨
        t = TimerTask.restartAfterSpeech →
      Effect.listenerStart ∈ (fireTimer t s).2 →
        s.continuousMode = true ∧ s.isSpeaking = false) ∧
    (Effect.listenerStart ∈ (fireTimer TimerTask.restartAfterSpeechError s).2 →
      s.isSpeaking = false) := by
  constructor
  · rintro (rfl | rfl | rfl) h
    · simp only [fireTimer] at h
      split at h
      · next hc => exact ⟨hc, (startListening_start_mem h).1⟩
      · simp at h
    · simp only [fireTimer] at h
      split at h
      · next hc => exact ⟨hc.1, (startListening_start_mem h).1⟩
      · simp at h
    · simp only [fireTimer] at h
      split at h
      · next hc =>
        simp only [List.cons_append, List.nil_append, List.mem_cons] at h
        rcases h with h | h
        · exact absurd h (by simp)
        · exact ⟨hc.1, (startListening_start_mem h).1⟩
      · simp at h
  · intro h
    exact (startListening_start_mem (by simpa [fireTimer] using h)).1

/-- Claim C3, witness for the amended theorem. -/
theorem C3_restart_guards_witness :
    ({ initState with continuousMode := true }.continuousMode = true ∧
      { initState with continuousMode := true }.isSpeaking = false) ∧
    initState.isSpeaking = false :=
  ⟨(C3_restart_guards TimerTask.restartAfterEnd { initState with continuousMode := true }).1
      (Or.inl rfl) (by decide),
   (C3_restart_guards TimerTask.restartAfterEnd initState).2 (by decide)⟩

/-! ### Claim C4 -/

/-- Claim C4: disabling continuous mode (toggling while the flag is true)
synchronously clears the speaking flag and requests a listener stop when
the listener is active; the listener flag clears with the capability's end
acknowledgment, which schedules nothing further because the mode flag is
already down — so both states are Idle within one scheduling tick. -/
theorem C4_disable_idle (s : CoordState) (h : s.continuousMode = true) :
    (toggleContinuousMode s).1.continuousMode = false ∧
    (toggleContinuousMode s).1.isSpeaking = false ∧
    (s.isRecording = true → Effect.listenerStop ∈ (toggleContinuousMode s).2) ∧
    (s.isRecording = false → (toggleContinuousMode s).1.isRecording = false) ∧
    (handleRecognitionEnd (toggleContinuousMode s).1).1.isRecording = false ∧
    (handleRecognitionEnd (toggleContinuousMode s).1).1.isSpeaking = false ∧
    (handleRecognitionEnd (toggleContinuousMode s).1).2 = [] := by
  simp [toggleContinuousMode, h, stopSpeaking, handleRecognitionEnd, stopRecording]

/-- Claim C4, witness. -/
theorem C4_disable_idle_witness :
    (toggleContinuousMode
        { initState with continuousMode := true, isRecording := true, isSpeaking := true
        }).1.continuousMode = false ∧
    (toggleContinuousMode
        { initState with continuousMode := true, isRecording := true, isSpeaking := true
        }).1.isSpeaking = false ∧
    Effect.listenerStop ∈ (toggleContinuousMode
        { initState with continuousMode := true, isRecording := true, isSpeaking := true }).2 ∧
    (handleRecognitionEnd (toggleContinuousMode
        { initState with continuousMode := true, isRecording := true, isSpeaking := true
        }).1).1.isRecording = false ∧
    (handleRecognitionEnd (toggleContinuousMode
        { initState with continuousMode := true, isRecording := true, isSpeaking := true
        }).1).2 = [] := by
  have h := C4_disable_idle
    { initState with continuousMode := true, isRecording := true, isSpeaking := true } rfl
  exact ⟨h.1, h.2.1, h.2.2.1 rfl, h.2.2.2.2.1, h.2.2.2.2.2.2⟩

/-! ### Claim C5 -/

/-- Claim C5, counterexample.  Toggling continuous mode on while the
speaker is active does force `AutoSpeakFlag` true, but no listening start
is issued to the capability: `startListening` returns early because
`isSpeaking` is set, so "immediately requests a listening start" fails. -/
theorem C5_counterexample :
    ({ initState with isSpeaking := true }).continuousMode = false ∧
    (toggleContinuousMode { initState with isSpeaking := true }).1.autoSpeak = true ∧
    Effect.listenerStart ∉ (toggleContinuousMode { initState with isSpeaking := true }).2 := by
  refine ⟨rfl, rfl, ?_⟩
  decide

/-- Claim C5, amended: toggling continuous mode on always forces
`AutoSpeakFlag` true regardless of its prior value and calls
`startListening`; the start is issued to the capability exactly when the
standing guards allow it — speaker idle, listener not already active, and
the capability supported. -/
theorem C5_enable (s : CoordState) (h : s.continuousMode = false) :
    (toggleContinuousMode s).1.autoSpeak = true ∧
    (toggleContinuousMode s).1.continuousMode = true ∧
    (s.isSpeaking = false → s.isRecording = false → s.srSupported = true →
      Effect.listenerStart ∈ (toggleContinuousMode s).2) := by
  refine ⟨?_, ?_, fun h1 h2 h3 => ?_⟩
  · simp [toggleContinuousMode, h, startListening_state]
  · simp [toggleContinuousMode, h, startListening_state]
  · simp only [toggleContinuousMode, h]
    simp only [Bool.not_false, if_true]
    exact List.mem_append.mpr (Or.inr (startListening_starts h1 h2 h3))

/-- Claim C5, witness for the amended theorem. -/
theorem C5_enable_witness :
    (toggleContinuousMode initState).1.autoSpeak = true ∧
    (toggleContinuousMode initState).1.continuousMode = true ∧
    Effect.listenerStart ∈ (toggleContinuousMode initState).2 := by
  have h := C5_enable initState rfl
  exact ⟨h.1, h.2.1, h.2.2 rfl rfl rfl⟩

/-! ### Claim C8 -/

/-- Claim C8: `toggleVoiceInput` while the speaker is active and the
listener idle is a no-op — the state is unchanged (so the listener stays
Idle) and no start request is issued to the listener capability. -/
theorem C8_toggle_noop (s : CoordState) (h1 : s.isSpeaking = true)
    (h2 : s.isRecording = false) :
    (toggleVoiceInput s).1 = s ∧
    (toggleVoiceInput s).1.isRecording = false ∧
    Effect.listenerStart ∉ (toggleVoiceInput s).2 := by
  refine ⟨?_, ?_, ?_⟩
  · simp [toggleVoiceInput, h2, startListening_state]
  · simp [toggleVoiceInput, h2, startListening_state, h2]
  · intro hmem
    unfold toggleVoiceInput at hmem
    rw [if_neg (by simp [h2])] at hmem
    rcases List.mem_append.mp hmem with h' | h'
    · by_cases h3 : s.srSupported <;> simp [h3] at h'
    · exact absurd (startListening_start_mem h').1 (by simp [h1])

/-- Claim C8, witness. -/
theorem C8_toggle_noop_witness :
    (toggleVoiceInput { initState with isSpeaking := true }).1
        = { initState with isSpeaking := true } ∧
    (toggleVoiceInput { initState with isSpeaking := true }).1.isRecording = false ∧
    Effect.listenerStart ∉ (toggleVoiceInput { initState with isSpeaking := true }).2 :=
  C8_toggle_noop { initState with isSpeaking := true } rfl rfl

/-! ### Text-cleaning lemmas (claim C6) -/

/-- Two consecutive stars occur somewhere in the list. -/
def hasStarStar : List Char → Bool
  | [] => false
  | [_] => false
  | c :: d :: rest => (c = '*' && d = '*') || hasStarStar (d :: rest)

/-- Three consecutive newlines occur somewhere in the list. -/
def hasTripleNewline : List Char → Bool
  | [] => false
  | [_] => false
  | [_, _] => false
  | c :: d :: e :: rest =>
    (c = '\n' && d = '\n' && e = '\n') || hasTripleNewline (d :: e :: rest)

/-- Characters surviving the emoji pass come from the input. -/
theorem mem_removeEmoji : ∀ (l : List Char) {c : Char}, c ∈ removeEmoji l → c ∈ l
  | [], _, h => by simp [removeEmoji] at h
  | [d], c, h => by
    simp only [removeEmoji] at h
    split at h
    · simp at h
    · exact h
  | a :: d :: rest, c, h => by
    simp only [removeEmoji] at h
    split at h
    · exact List.mem_cons_of_mem _ (List.mem_cons_of_mem _ (mem_removeEmoji rest h))
    · split at h
      · exact List.mem_cons_of_mem _ (mem_removeEmoji (d :: rest) h)
      · rcases List.mem_cons.mp h with rfl | h
        · exact List.mem_cons_self _ _
        · exact List.mem_cons_of_mem _ (mem_removeEmoji (d :: rest) h)

/-- The emoji pass removes every occurrence of each single-scalar
alternative. -/
theorem not_mem_removeEmoji {e : Char} (he : isEmojiSingle e = true) :
    ∀ (l : List Char), e ∉ removeEmoji l
  | [] => by simp [removeEmoji]
  | [d] => by
    simp only [removeEmoji]
    split
    · simp
    · next hd =>
      simp only [List.mem_singleton]
      rintro rfl
      exact hd he
  | a :: d :: rest => by
    simp only [removeEmoji]
    split
    · exact not_mem_removeEmoji he rest
    · split
      · exact not_mem_removeEmoji he (d :: rest)
      · next ha =>
        intro hmem
        rcases List.mem_cons.mp hmem with rfl | hmem
        · exact ha he
        · exact not_mem_removeEmoji he (d :: rest) hmem

/-- Characters surviving the star pass come from the input. -/
theorem mem_removeStars : ∀ (l : List Char) {c : Char}, c ∈ removeStars l → c ∈ l
  | [], _, h => by simp [removeStars] at h
  | [d], c, h => by simpa [removeStars] using h
  | a :: d :: rest, c, h => by
    simp only [removeStars] at h
    split at h
    · exact List.mem_cons_of_mem _ (List.mem_cons_of_mem _ (mem_removeStars rest h))
    · rcases List.mem_cons.mp h with rfl | h
      · exact List.mem_cons_self _ _
      · exact List.mem_cons_of_mem _ (mem_removeStars (d :: rest) h)

/-- The star pass leaves the head unchanged when the head is not a star. -/
theorem removeStars_head (l : List Char) (h : l.head? ≠ some '*') :
    (removeStars l).head? = l.head? := by
  cases l with
  | nil => rfl
  | cons c t =>
    cases t with
    | nil => rfl
    | cons d rest =>
      have hc : c ≠ '*' := by simpa using h
      simp [removeStars, hc]

/-- Splitting a star-pair-freedom fact at a cons cell. -/
theorem hasSS_cons_elim {c : Char} {rest : List Char}
    (h : hasStarStar (c :: rest) = false) :
    (c = '*' → rest.head? ≠ some '*') ∧ hasStarStar rest = false := by
  cases rest with
  | nil => simp [hasStarStar]
  | cons d r =>
    simp only [hasStarStar] at h
    simp at h
    refine ⟨?_, h.2⟩
    intro hc
    simpa using h.1 hc

/-- Rebuilding star-pair freedom at a cons cell. -/
theorem hasSS_cons_of {c : Char} {X : List Char}
    (h1 : c = '*' → X.head? ≠ some '*') (h2 : hasStarStar X = false) :
    hasStarStar (c :: X) = false := by
  cases X with
  | nil => simp [hasStarStar]
  | cons d r =>
    simp only [hasStarStar]
    simp [h2]
    intro hc
    simpa using h1 hc

/-- The star pass leaves no two consecutive stars. -/
theorem hasSS_removeStars : ∀ (l : List Char), hasStarStar (removeStars l) = false
  | [] => by simp [removeStars, hasStarStar]
  | [c] => by simp [removeStars, hasStarStar]
  | c :: d :: rest => by
    simp only [removeStars]
    split
    · exact hasSS_removeStars rest
    · next hcond =>
      apply hasSS_cons_of _ (hasSS_removeStars (d :: rest))
      intro hc
      have hd : d ≠ '*' := by
        intro hd
        exact hcond (by simp [hc, hd])
      rw [removeStars_head (d :: rest) (by simpa using hd)]
      simpa using hd

/-- Characters surviving the newline pass come from the input. -/
theorem mem_collapseGo {c : Char} : ∀ (k : Nat) (l : List Char),
    c ∈ collapseGo k l → c ∈ l := by
  intro k l
  induction l generalizing k with
  | nil => simp [collapseGo]
  | cons d rest ih =>
    intro h
    by_cases hd : d = '\n'
    · subst hd
      by_cases hk : k ≥ 2
      · rw [show collapseGo k ('\n' :: rest) = collapseGo (k + 1) rest from by
          simp [collapseGo, hk]] at h
        exact List.mem_cons_of_mem _ (ih _ h)
      · rw [show collapseGo k ('\n' :: rest) = '\n' :: collapseGo (k + 1) rest from by
          simp [collapseGo, hk]] at h
        rcases List.mem_cons.mp h with h | h
        · exact h ▸ List.mem_cons_self _ _
        · exact List.mem_cons_of_mem _ (ih _ h)
    · rw [show collapseGo k (d :: rest) = d :: collapseGo 0 rest from by
        simp [collapseGo, hd]] at h
      rcases List.mem_cons.mp h with h | h
      · exact h ▸ List.mem_cons_self _ _
      · exact List.mem_cons_of_mem _ (ih _ h)

/-- With no newline pending, the newline pass preserves the head. -/
theorem collapseGo_zero_head (l : List Char) :
    (collapseGo 0 l).head? = l.head? := by
  cases l with
  | nil => rfl
  | cons c rest =>
    by_cases hc : c = '\n'
    · subst hc; simp [collapseGo]
    · simp [collapseGo, hc]

/-- Once two newlines of a run have been emitted, the next emitted
character is not a newline. -/
theorem collapseGo_ge2_head : ∀ (l : List Char) (k : Nat), 2 ≤ k →
    (collapseGo k l).head? ≠ some '\n' := by
  intro l
  induction l with
  | nil => intro k hk; simp [collapseGo]
  | cons c rest ih =>
    intro k hk
    by_cases hc : c = '\n'
    · subst hc
      rw [show collapseGo k ('\n' :: rest) = collapseGo (k + 1) rest from by
        simp [collapseGo, Nat.le_of_lt (Nat.lt_succ_of_le hk), hk]]
      exact ih (k + 1) (Nat.le_succ_of_le hk)
    · rw [show collapseGo k (c :: rest) = c :: collapseGo 0 rest from by
        simp [collapseGo, hc]]
      simpa using hc

/-- The newline pass preserves star-pair freedom (it deletes only newlines
and always keeps at least one newline of every run). -/
theorem hasSS_collapseGo : ∀ (l : List Char) (k : Nat),
    hasStarStar l = false → hasStarStar (collapseGo k l) = false := by
  intro l
  induction l with
  | nil => intro k h; simp [collapseGo, hasStarStar]
  | cons c rest ih =>
    intro k h
    obtain ⟨h1, h2⟩ := hasSS_cons_elim h
    by_cases hc : c = '\n'
    · subst hc
      by_cases hk : k ≥ 2
      · rw [show collapseGo k ('\n' :: rest) = collapseGo (k + 1) rest from by
          simp [collapseGo, hk]]
        exact ih _ h2
      · rw [show collapseGo k ('\n' :: rest) = '\n' :: collapseGo (k + 1) rest from by
          simp [collapseGo, hk]]
        exact hasSS_cons_of (fun hc => absurd hc (by decide)) (ih _ h2)
    · rw [show collapseGo k (c :: rest) = c :: collapseGo 0 rest from by
        simp [collapseGo, hc]]
      apply hasSS_cons_of _ (ih 0 h2)
      intro hc
      rw [collapseGo_zero_head]
      exact h1 hc

/-- Rebuilding triple-newline freedom at a cons cell. -/
theorem hasTriple_cons_of {c : Char} {X : List Char}
    (h1 : c = '\n' → X.head? = some '\n' → X.tail.head? ≠ some '\n')
    (h2 : hasTripleNewline X = false) :
    hasTripleNewline (c :: X) = false := by
  match X with
  | [] => simp [hasTripleNewline]
  | [d] => simp [hasTripleNewline]
  | d :: e :: r =>
    simp only [hasTripleNewline] at h2 ⊢
    simp [h2]
    intro hc hd
    have he := h1 hc (by simp [hd])
    simpa using he

/-- The newline pass leaves no three consecutive newlines. -/
theorem hasTriple_collapseGo : ∀ (l : List Char) (k : Nat),
    hasTripleNewline (collapseGo k l) = false := by
  intro l
  induction l with
  | nil => intro k; simp [collapseGo, hasTripleNewline]
  | cons c rest ih =>
    intro k
    by_cases hc : c = '\n'
    · subst hc
      by_cases hk : k ≥ 2
      · rw [show collapseGo k ('\n' :: rest) = collapseGo (k + 1) rest from by
          simp [collapseGo, hk]]
        exact ih (k + 1)
      · rw [show collapseGo k ('\n' :: rest) = '\n' :: collapseGo (k + 1) rest from by
          simp [collapseGo, hk]]
        apply hasTriple_cons_of _ (ih (k + 1))
        intro _ hhead
        have hk01 : k = 0 ∨ k = 1 := by omega
        rcases hk01 with rfl | rfl
        · cases rest with
          | nil => simp [collapseGo] at hhead
          | cons d r2 =>
            by_cases hd : d = '\n'
            · subst hd
              rw [show collapseGo 1 ('\n' :: r2) = '\n' :: collapseGo 2 r2 from by
                simp [collapseGo]]
              simpa using collapseGo_ge2_head r2 2 (le_refl 2)
            · rw [show collapseGo 1 (d :: r2) = d :: collapseGo 0 r2 from by
                simp [collapseGo, hd]] at hhead
              exact absurd (by simpa using hhead) hd
        · exact absurd hhead (collapseGo_ge2_head rest 2 (le_refl 2))
    · rw [show collapseGo k (c :: rest) = c :: collapseGo 0 rest from by
        simp [collapseGo, hc]]
      exact hasTriple_cons_of (fun h => absurd h hc) (ih 0)

/-! ### Claim C2 -/

/-- Claim C2: a `no-speech` listener error in continuous mode surfaces no
user-visible error, and — across the error callback together with the end
callback the one-shot capability then delivers — exactly one listening
restart is scheduled (the error handler itself excludes `no-speech` from
its 1 s restart; the end handler schedules the single 500 ms restart when
the speaker is idle).  Outside continuous mode the same error shows a
visible error status. -/
theorem C2_no_speech (s : CoordState) :
    (s.continuousMode = true →
      ((handleRecognitionError "no-speech" s).2.all (fun e => !isVisibleError e) = true ∧
       (s.isSpeaking = false →
         countRestarts ((handleRecognitionError "no-speech" s).2 ++
           (handleRecognitionEnd (handleRecognitionError "no-speech" s).1).2) = 1))) ∧
    (s.continuousMode = false →
      Effect.showVoiceStatus "❌ Error: no-speech" true
        ∈ (handleRecognitionError "no-speech" s).2) := by
  constructor
  · intro hc
    constructor
    · simp [handleRecognitionError, hc]
    · intro hsp
      simp [handleRecognitionError, handleRecognitionEnd, stopRecording, hc, hsp,
        countRestarts, isRestartSchedule]
  · intro hc
    simp [handleRecognitionError, hc]

/-- Claim C2, witness. -/
theorem C2_no_speech_witness :
    (handleRecognitionError "no-speech" { initState with continuousMode := true }).2.all
        (fun e => !isVisibleError e) = true ∧
    countRestarts ((handleRecognitionError "no-speech" { initState with continuousMode := true }).2
        ++ (handleRecognitionEnd
          (handleRecognitionError "no-speech" { initState with continuousMode := true }).1).2) = 1 ∧
    Effect.showVoiceStatus "❌ Error: no-speech" true
        ∈ (handleRecognitionError "no-speech" initState).2 :=
  ⟨((C2_no_speech { initState with continuousMode := true }).1 rfl).1,
   ((C2_no_speech { initState with continuousMode := true }).1 rfl).2 rfl,
   (C2_no_speech initState).2 rfl⟩

/-! ### Claim C6 -/

/-- Claim C6, counterexample.  The passes run in sequence, so deleting the
`━` standing between the bare shield scalar and a following variation
selector recreates the two-scalar listed emoji `🛡 U+FE0F` in the output:
cleaning `🛡━(U+FE0F)` yields exactly `🛡(U+FE0F)`, which still contains a
member of the fixed decorative set — "removes every occurrence of the
fixed decorative set" fails at this input. -/
theorem C6_counterexample :
    cleanText "🛡━️" = "🛡️" ∧
    containsSeq "🛡️".data (cleanText "🛡━️").data = true := by
  constructor
  · rfl
  · rfl

/-- Claim C6, amended: the cleaning pipeline behaves as claimed except for
the recombination in the counterexample — the two concrete scenarios hold
(`"Hello 🩺 patient" ↦ "Hello  patient"`, a 4-newline run collapses to
exactly 2), and for every input the output contains none of the ten
single-scalar listed emoji, no `━`, no `**`, and no run of 3 or more
newlines. -/
theorem C6_cleaning :
    cleanText "Hello 🩺 patient" = "Hello  patient" ∧
    cleanText "a\n\n\n\nb" = "a\n\nb" ∧
    (∀ (l : List Char) (c : Char), isEmojiSingle c = true → c ∉ cleanChars l) ∧
    (∀ l : List Char, '━' ∉ cleanChars l) ∧
    (∀ l : List Char, hasStarStar (cleanChars l) = false) ∧
    (∀ l : List Char, hasTripleNewline (cleanChars l) = false) := by
  refine ⟨by decide, by decide, ?_, ?_, ?_, ?_⟩
  · intro l c hc hmem
    simp only [cleanChars] at hmem
    have h1 := mem_collapseGo _ _ hmem
    have h2 := mem_removeStars _ h1
    have h3 : c ∈ removeEmoji l := (List.mem_filter.mp h2).1
    exact not_mem_removeEmoji hc l h3
  · intro l hmem
    simp only [cleanChars] at hmem
    have h1 := mem_collapseGo _ _ hmem
    have h2 := mem_removeStars _ h1
    have h3 := (List.mem_filter.mp h2).2
    simp at h3
  · intro l
    exact hasSS_collapseGo _ _ (hasSS_removeStars _)
  · intro l
    exact hasTriple_collapseGo _ _

/-- Claim C6, witness for the amended theorem. -/
theorem C6_cleaning_witness :
    '🩺' ∉ cleanChars ['🩺'] ∧
    '━' ∉ cleanChars ['━'] ∧
    hasStarStar (cleanChars ['*', '*']) = false ∧
    hasTripleNewline (cleanChars ['\n', '\n', '\n']) = false := by
  have h := C6_cleaning
  exact ⟨h.2.2.1 ['🩺'] '🩺' rfl, h.2.2.2.1 ['━'],
    h.2.2.2.2.1 ['*', '*'], h.2.2.2.2.2 ['\n', '\n', '\n']⟩

/-! ### Claim C7 -/

/-- Claim C7: when the `POST /chat` request fails, the fallback reply is
the only doctor-side message produced, exactly one chat request was issued
(no retry), and the session identifier and patient data are unchanged. -/
theorem C7_chat_failure (voices : List Voice) (s : CoordState)
    (h : strTrim s.messageInput ≠ "") :
    (sendMessage voices none s).1.sessionId = s.sessionId ∧
    (sendMessage voices none s).1.patientData = s.patientData ∧
    ((sendMessage voices none s).2.filter (fun e => isChatRequest e)).length = 1 ∧
    ((sendMessage voices none s).2.filter (fun e => isDoctorMessage e))
      = [Effect.addMessage "doctor" fallbackReply] := by
  simp [sendMessage, h, isChatRequest, isDoctorMessage, fallbackReply]

/-- Claim C7, witness. -/
theorem C7_chat_failure_witness :
    (sendMessage [] none { initState with messageInput := "hi" }).1.sessionId
        = ({ initState with messageInput := "hi" }).sessionId ∧
    (sendMessage [] none { initState with messageInput := "hi" }).1.patientData
        = ({ initState with messageInput := "hi" }).patientData ∧
    ((sendMessage [] none { initState with messageInput := "hi" }).2.filter
        (fun e => isChatRequest e)).length = 1 ∧
    ((sendMessage [] none { initState with messageInput := "hi" }).2.filter
        (fun e => isDoctorMessage e)) = [Effect.addMessage "doctor" fallbackReply] :=
  C7_chat_failure [] { initState with messageInput := "hi" } (by decide)

/-! ### Claim C10 -/

/-- Claim C10: a successful chat reply is spoken exactly when
`autoSpeak || continuousMode` holds — in particular it is spoken when
continuous mode is on even though auto-speak is off — the utterance stored
for the deferred speak carries the cleaned reply text, and
`toggleAutoSpeak` flips only the auto-speak flag, leaving
`continuousMode` untouched. -/
theorem C10_speak_disjunction (voices : List Voice) (d : ChatResponse)
    (s : CoordState) (h1 : strTrim s.messageInput ≠ "") (h2 : s.ttsSupported = true) :
    (Effect.schedule 100 TimerTask.speakNow ∈ (sendMessage voices (some d) s).2
      ↔ (s.autoSpeak || s.continuousMode) = true) ∧
    ((s.autoSpeak || s.continuousMode) = true →
      (sendMessage voices (some d) s).1.currentUtterance
        = some (mkUtterance voices d.response)) ∧
    (toggleAutoSpeak s).1.continuousMode = s.continuousMode ∧
    (toggleAutoSpeak s).1.autoSpeak = !s.autoSpeak := by
  refine ⟨?_, ?_, ?_, ?_⟩
  · by_cases hd : (s.autoSpeak || s.continuousMode) = true
    · simp [sendMessage, h1, hd, speakText, h2]
    · simp [sendMessage, h1, hd]
  · intro hd
    simp [sendMessage, h1, hd, speakText, h2]
  · unfold toggleAutoSpeak
    by_cases ha : s.autoSpeak <;> simp [ha, stopSpeaking]
  · unfold toggleAutoSpeak
    by_cases ha : s.autoSpeak <;> simp [ha, stopSpeaking]

/-- Claim C9, counterexample.  The source's first tier requires the
voice's `lang` to contain `en-US` or `en-GB`, not merely to be English:
with an `en-AU` voice named "Google A" listed before an `en-US` voice
named "Aria Female", the claim's rule ("an English voice whose name
contains a preferred substring") picks the Google `en-AU` voice, while the
code picks the `en-US` one — the two selections differ. -/
theorem C9_counterexample :
    selectVoice [⟨"Google A", "en-AU"⟩, ⟨"Aria Female", "en-US"⟩]
        = some ⟨"Aria Female", "en-US"⟩ ∧
    selectVoiceClaim [⟨"Google A", "en-AU"⟩, ⟨"Aria Female", "en-US"⟩]
        = some ⟨"Google A", "en-AU"⟩ ∧
    selectVoice [⟨"Google A", "en-AU"⟩, ⟨"Aria Female", "en-US"⟩]
        ≠ selectVoiceClaim [⟨"Google A", "en-AU"⟩, ⟨"Aria Female", "en-US"⟩] := by
  refine ⟨by decide, by decide, by decide⟩

/-- Claim C9, amended: for every non-empty voice list the selection
succeeds and returns a voice of the list, preferring (1) a voice whose
`lang` contains `en-US` or `en-GB` and whose name contains one of the five
preferred substrings, then (2) any voice whose `lang` contains `en`, then
(3) the first voice; the chosen voice is the one assigned to the
utterance. -/
theorem C9_voice_selection (voices : List Voice) (h : voices ≠ []) :
    (selectVoice voices).isSome = true ∧
    (∀ v : Voice, selectVoice voices = some v →
      v ∈ voices ∧
      ((∃ w ∈ voices, tier1 w = true) → tier1 v = true) ∧
      ((∀ w ∈ voices, tier1 w = false) → (∃ w ∈ voices, isEnglishVoice w = true) →
        isEnglishVoice v = true) ∧
      ((∀ w ∈ voices, tier1 w = false) → (∀ w ∈ voices, isEnglishVoice w = false) →
        voices.head? = some v)) ∧
    (∀ text : String, (mkUtterance voices text).voice = selectVoice voices) := by
  refine ?_
  cases hf : voices.find? tier1 with
  | some w =>
    have hsel : selectVoice voices = some w := by simp [selectVoice, hf]
    rw [hsel]
    refine ⟨rfl, ?_, fun _ => by simp [mkUtterance, hsel]⟩
    intro v hv
    obtain rfl : w = v := Option.some.inj hv
    refine ⟨List.mem_of_find?_eq_some hf, fun _ => List.find?_some hf, ?_, ?_⟩
    · intro hall _
      exact absurd (List.find?_some hf)
        (by simp [hall _ (List.mem_of_find?_eq_some hf)])
    · intro hall _
      exact absurd (List.find?_some hf)
        (by simp [hall _ (List.mem_of_find?_eq_some hf)])
  | none =>
    have hnone : ∀ w ∈ voices, tier1 w = false := by
      intro w hw
      simpa using List.find?_eq_none.mp hf w hw
    cases hg : voices.find? isEnglishVoice with
    | some w =>
      have hsel : selectVoice voices = some w := by simp [selectVoice, hf, hg]
      rw [hsel]
      refine ⟨rfl, ?_, fun _ => by simp [mkUtterance, hsel]⟩
      intro v hv
      obtain rfl : w = v := Option.some.inj hv
      refine ⟨List.mem_of_find?_eq_some hg, ?_, fun _ _ => List.find?_some hg, ?_⟩
      · rintro ⟨w2, hw2, ht⟩
        exact absurd ht (by simp [hnone w2 hw2])
      · intro _ hallE
        exact absurd (List.find?_some hg)
          (by simp [hallE _ (List.mem_of_find?_eq_some hg)])
    | none =>
      have hnoneE : ∀ w ∈ voices, isEnglishVoice w = false := by
        intro w hw
        simpa using List.find?_eq_none.mp hg w hw
      cases voices with
      | nil => exact absurd rfl h
      | cons a t =>
        have hsel : selectVoice (a :: t) = some a := by simp [selectVoice, hf, hg]
        rw [hsel]
        refine ⟨rfl, ?_, fun _ => by simp [mkUtterance, hsel]⟩
        intro v hv
        obtain rfl : a = v := Option.some.inj hv
        refine ⟨List.mem_cons_self a t, ?_, ?_, fun _ _ => rfl⟩
        · rintro ⟨w2, hw2, ht⟩
          exact absurd ht (by simp [hnone w2 hw2])
        · rintro _ ⟨w2, hw2, ht⟩
          exact absurd ht (by simp [hnoneE w2 hw2])

/-- Claim C9, witness for the amended theorem. -/
theorem C9_voice_selection_witness :
    (selectVoice [⟨"Aria Female", "en-US"⟩]).isSome = true ∧
    (⟨"Aria Female", "en-US"⟩ : Voice) ∈ [(⟨"Aria Female", "en-US"⟩ : Voice)] ∧
    tier1 ⟨"Aria Female", "en-US"⟩ = true ∧
    (mkUtterance [⟨"Aria Female", "en-US"⟩] "x").voice
      = selectVoice [⟨"Aria Female", "en-US"⟩] := by
  have h := C9_voice_selection [⟨"Aria Female", "en-US"⟩] (by decide)
  have h2 := h.2.1 ⟨"Aria Female", "en-US"⟩ (by decide)
  exact ⟨h.1, h2.1, h2.2.1 ⟨⟨"Aria Female", "en-US"⟩, by decide, by decide⟩, h.2.2 "x"⟩

/-- Claim C10, witness: continuous mode on, auto-speak off — the reply is
still spoken. -/
theorem C10_speak_disjunction_witness :
    Effect.schedule 100 TimerTask.speakNow
      ∈ (sendMessage [] (some ⟨"sid", "reply", "pd"⟩)
          { initState with messageInput := "hi", continuousMode := true }).2 ∧
    (sendMessage [] (some ⟨"sid", "reply", "pd"⟩)
        { initState with messageInput := "hi", continuousMode := true }).1.currentUtterance
      = some (mkUtterance [] "reply") ∧
    (toggleAutoSpeak { initState with messageInput := "hi", continuousMode := true
      }).1.continuousMode = true := by
  have h := C10_speak_disjunction [] ⟨"sid", "reply", "pd"⟩
    { initState with messageInput := "hi", continuousMode := true } (by decide) rfl
  exact ⟨h.1.mpr rfl, h.2.1 rfl, h.2.2.1⟩

end RiyaVoice
